import Mathlib

/-!
Shallow embedding of the `synapse` pub/sub library (Python) in Lean 4.

Embedded components, translated from the source:
* `src/synapse/models/response.py` — the `Message`, `ReceivedMessage`,
  `PullResponse` and `PublishFuture` data containers.
* `src/fasteroutcomes_pubsub/models/request.py` — the `PullRequest` and
  `AcknowledgeRequest` request shapes.
* `src/synapse/adapters/rabbitmq/publisher.py` — `RabbitMQPublisher.publish`
  (topic parsing and the `basic_publish` broker call it issues).
* `src/synapse/adapters/rabbitmq/subscriber.py` — `RabbitMQSubscriber.pull`
  and `RabbitMQSubscriber.acknowledge`, with the `_pending_acks` dict
  modelled as an association list with Python-dict semantics (unique keys;
  update-in-place for an existing key, append for a fresh one; `pop`
  removes the entry).
* `src/synapse/consumer/message_consumer.py` and
  `src/synapse/consumer/async_message_consumer.py` — the generic consumer
  loop (`process_one_message`, `run`).

Interaction with the broker (pika) and with the handler is modelled by
oracle inputs (what the broker delivers on this call, what the handler
returns) plus an explicit trace of the outgoing calls the code issues.
Exceptions are modelled with `Except String`. Bytes are `List Nat`.
-/

/-- Message data container (`Message` in `response.py`): raw payload bytes. -/
structure Message where
  data : List Nat
deriving Repr, DecidableEq

/-- Received message container (`ReceivedMessage` in `response.py`). -/
structure ReceivedMessage where
  message : Message
  ack_id : String
deriving Repr, DecidableEq

/-- Pull response container (`PullResponse` in `response.py`). -/
structure PullResponse where
  received_messages : List ReceivedMessage
deriving Repr, DecidableEq

/-- Future-like object for a publish result (`PublishFuture` in `response.py`). -/
structure PublishFuture where
  message_id : String
deriving Repr, DecidableEq

/-- `PublishFuture.result()` returns the message id. -/
def PublishFuture.result (f : PublishFuture) : String :=
  f.message_id

/-- Request for pulling messages (`PullRequest` TypedDict in `request.py`). -/
structure PullRequest where
  subscription : String
  max_messages : Nat
deriving Repr, DecidableEq

/-- Request for acknowledging messages (`AcknowledgeRequest` TypedDict in `request.py`). -/
structure AcknowledgeRequest where
  subscription : String
  ack_ids : List String
deriving Repr, DecidableEq

/-!
## RabbitMQ publisher (`publisher.py`)

`RabbitMQPublisher.publish(topic, data, **_kwargs)` parses the topic,
issues one `basic_publish` on the channel (with `delivery_mode=2`,
persistent) and returns `PublishFuture(message_id="")`.  The broker call is
reified as a `BasicPublishCall` value.
-/

/-- The arguments of the single `channel.basic_publish(...)` call that
`publish` issues; `delivery_mode` comes from the `pika.BasicProperties`. -/
structure BasicPublishCall where
  exchange : String
  routing_key : String
  body : List Nat
  delivery_mode : Nat
deriving Repr, DecidableEq

/-- Python `topic.split(":", 1)` restricted to the case `":" in topic`:
returns `some (before, after)` at the first colon, `none` when the list has
no colon (the `":" in topic` test is false exactly when this is `none`). -/
def splitOnceColon : List Char → Option (List Char × List Char)
  | [] => none
  | c :: cs =>
    if c = ':' then some ([], cs)
    else
      match splitOnceColon cs with
      | some (a, b) => some (c :: a, b)
      | none => none

/-- `RabbitMQPublisher.publish`: parse the topic as `"exchange:routing_key"`
(split at the first `":"`) or a bare queue name (default exchange `""`),
issue `basic_publish` with persistent delivery mode, ignore `_kwargs`, and
return a `PublishFuture` with an empty message id. -/
def RabbitMQPublisher.publish (topic : String) (data : List Nat)
    (_kwargs : List (String × String)) : BasicPublishCall × PublishFuture :=
  let pair : String × String :=
    match splitOnceColon topic.data with
    | some (ex, rk) => (String.mk ex, String.mk rk)
    | none => ("", topic)
  ({ exchange := pair.1, routing_key := pair.2, body := data,
     delivery_mode := 2 },
   { message_id := "" })

/-!
## RabbitMQ subscriber (`subscriber.py`)

State: `self._pending_acks : dict[str, int]`, mapping ack id to delivery
tag.  The Python dict is modelled as an association list with unique keys:
assignment `d[k] = v` updates an existing entry in place or appends a new
one, and `d.pop(k, None)` looks the key up and removes its entry.
-/

/-- Python dict assignment `d[k] = v`: update in place if `k` is present,
append `(k, v)` otherwise. -/
def dictInsert : List (String × Nat) → String → Nat → List (String × Nat)
  | [], k, v => [(k, v)]
  | (k', v') :: rest, k, v =>
    if k' = k then (k, v) :: rest else (k', v') :: dictInsert rest k v

/-- Python dict lookup `d.get(k)`: value at the first entry with key `k`. -/
def dictGet : List (String × Nat) → String → Option Nat
  | [], _ => none
  | (k', v') :: rest, k => if k' = k then some v' else dictGet rest k

/-- Removal part of Python `d.pop(k, None)`: drop the first entry with key
`k` (a dict has at most one). -/
def dictRemove : List (String × Nat) → String → List (String × Nat)
  | [], _ => []
  | (k', v') :: rest, k =>
    if k' = k then rest else (k', v') :: dictRemove rest k

/-- The state of a `RabbitMQSubscriber` instance: the `_pending_acks`
correlation table mapping ack id to delivery tag. -/
structure SubState where
  pending_acks : List (String × Nat)
deriving Repr, DecidableEq

/-- Calls the subscriber issues on its channel, reified as a trace:
`consume(queue, inactivity_timeout)`, `cancel()` and
`basic_ack(delivery_tag)`. -/
inductive BrokerCall where
  | consume (queue : String) (inactivity_timeout : Nat)
  | cancel
  | basic_ack (delivery_tag : Nat)
deriving Repr, DecidableEq

/-- `RabbitMQSubscriber.pull`: open a time-bounded consume stream on
`request["subscription"]`; `delivered` is what the stream yields first —
`none` models the inactivity timeout (pika yields `(None, None, None)`),
`some (tag, body)` a message with delivery tag `tag` and payload `body`.
On a message, mint `ack_id = str(delivery_tag)`, insert it into
`_pending_acks`, and surface a single `ReceivedMessage`; in both cases
break out of the loop, cancel the consumer, and return the response. -/
def RabbitMQSubscriber.pull (st : SubState) (request : PullRequest)
    (timeout : Nat) (delivered : Option (Nat × List Nat)) :
    SubState × PullResponse × List BrokerCall :=
  match delivered with
  | none =>
    (st, { received_messages := [] },
     [.consume request.subscription timeout, .cancel])
  | some (tag, body) =>
    let ack_id := toString tag
    ({ pending_acks := dictInsert st.pending_acks ack_id tag },
     { received_messages := [{ message := { data := body }, ack_id := ack_id }] },
     [.consume request.subscription timeout, .cancel])

/-- One iteration of the `acknowledge` loop body:
`delivery_tag = self._pending_acks.pop(ack_id, None)`; when found, issue
`basic_ack(delivery_tag)`. -/
def ackOne (st : SubState) (ack_id : String) : SubState × List BrokerCall :=
  match dictGet st.pending_acks ack_id with
  | some tag => ({ pending_acks := dictRemove st.pending_acks ack_id },
                 [.basic_ack tag])
  | none => (st, [])

/-- The `for ack_id in request["ack_ids"]` loop of `acknowledge`. -/
def ackList : SubState → List String → SubState × List BrokerCall
  | st, [] => (st, [])
  | st, a :: as =>
    let r1 := ackOne st a
    let r2 := ackList r1.1 as
    (r2.1, r1.2 ++ r2.2)

/-- `RabbitMQSubscriber.acknowledge`: pop each requested ack id from
`_pending_acks` and `basic_ack` the mapped delivery tag when it was
present. -/
def RabbitMQSubscriber.acknowledge (st : SubState) (request : AcknowledgeRequest) :
    SubState × List BrokerCall :=
  ackList st request.ack_ids

/-!
## Subscriber histories

A subscriber instance starts with an empty correlation table
(`__init__`) and evolves only through `pull` and `acknowledge` calls; an
event records one such call together with its oracle input.
-/

/-- One adapter call in the life of a subscriber instance: a `pull` with
what the broker delivered, or an `acknowledge`. -/
inductive SubEvent where
  | pull (request : PullRequest) (timeout : Nat)
      (delivered : Option (Nat × List Nat))
  | ack (request : AcknowledgeRequest)
deriving Repr, DecidableEq

/-- State after one event. -/
def stepEvent (st : SubState) : SubEvent → SubState
  | .pull request timeout delivered =>
    (RabbitMQSubscriber.pull st request timeout delivered).1
  | .ack request => (RabbitMQSubscriber.acknowledge st request).1

/-- Run a list of events from a state. -/
def runEventsFrom (st : SubState) : List SubEvent → SubState
  | [] => st
  | e :: evs => runEventsFrom (stepEvent st e) evs

/-- State reached from a fresh subscriber instance (empty table) by a
history of calls. -/
def runEvents (evs : List SubEvent) : SubState :=
  runEventsFrom { pending_acks := [] } evs

/-- The delivery tags of the messages surfaced so far and not yet
acknowledged, starting from `acc`: a surfaced message appends its tag, an
acknowledge removes every tag whose string form is among the requested ack
ids. -/
def pendingFrom (acc : List Nat) : List SubEvent → List Nat
  | [] => acc
  | .pull _ _ none :: evs => pendingFrom acc evs
  | .pull _ _ (some (tag, _)) :: evs => pendingFrom (acc ++ [tag]) evs
  | .ack request :: evs =>
    pendingFrom (acc.filter fun t => !request.ack_ids.contains (toString t)) evs

/-- Surfaced-and-unacknowledged delivery tags of a full history. -/
def pendingSpec (evs : List SubEvent) : List Nat :=
  pendingFrom [] evs

/-- Broker-side freshness of a history relative to the tags `acc`
currently outstanding: each delivered tag's minted ack id differs from
every outstanding one (RabbitMQ never reuses an outstanding delivery tag
on one channel). -/
def freshEvents (acc : List Nat) : List SubEvent → Bool
  | [] => true
  | .pull _ _ none :: evs => freshEvents acc evs
  | .pull _ _ (some (tag, _)) :: evs =>
    !(acc.map toString).contains (toString tag) && freshEvents (acc ++ [tag]) evs
  | .ack request :: evs =>
    freshEvents (acc.filter fun t => !request.ack_ids.contains (toString t)) evs

/-!
## Generic consumer loop (`message_consumer.py`, `async_message_consumer.py`)

A consumer owns a subscription path, a handler, a request model and a
subscriber.  The subscriber's `pull` is modelled by an oracle input (the
`PullResponse` that call returns) and its `acknowledge` by a recorded
effect; `json.loads`, the pydantic `request_model` constructor and the
handler are modelled as `Except`-valued functions (an `.error` models a
raised exception, which propagates).  The effect trace records, in order,
the calls the method body issues.
-/

/-- The observable calls `process_one_message` makes, in program order:
the subscriber pull (with its request dict and `timeout` argument), the
`json.loads` decode attempt on a payload, the handler invocation with the
validated request, and the subscriber acknowledge. -/
inductive ConsumerEffect (R : Type) where
  | pull (request : PullRequest) (timeout : Nat)
  | json_loads (data : List Nat)
  | handle (request : R)
  | acknowledge (request : AcknowledgeRequest)
deriving Repr, DecidableEq

/-- `MessageConsumer` instance state (`__init__` fields; the bound
subscriber is modelled by the oracle/effects, `json.loads` is the ambient
`json` module passed alongside). -/
structure MessageConsumer (J R : Type) where
  subscription : String
  handler : R → Except String Unit
  request_model : J → Except String R
  running : Bool

/-- `MessageConsumer.process_one_message`: pull one message with
`max_messages=1` and `timeout=30`; if the response is empty return; else
decode the first message's payload with `json.loads`, validate it with the
request model, route it to the handler, then acknowledge that message's
ack id.  Any raise propagates, aborting the remaining steps.  Returns the
(unmodified) consumer, the outcome, and the effect trace. -/
def MessageConsumer.process_one_message {J R : Type} (c : MessageConsumer J R)
    (json_loads : List Nat → Except String J) (response : PullResponse) :
    MessageConsumer J R × Except String Unit × List (ConsumerEffect R) :=
  let pullEff : ConsumerEffect R :=
    .pull { subscription := c.subscription, max_messages := 1 } 30
  match response.received_messages with
  | [] => (c, .ok (), [pullEff])
  | received_message :: _ =>
    let effs := [pullEff, .json_loads received_message.message.data]
    match json_loads received_message.message.data with
    | .error e => (c, .error e, effs)
    | .ok message_data =>
      match c.request_model message_data with
      | .error e => (c, .error e, effs)
      | .ok request =>
        match c.handler request with
        | .error e => (c, .error e, effs ++ [.handle request])
        | .ok _ =>
          (c, .ok (), effs ++ [.handle request,
            .acknowledge { subscription := c.subscription,
                           ack_ids := [received_message.ack_id] }])

/-- `MessageConsumer.run`: `while self._running: self.process_one_message()`.
`pulls` supplies the oracle pull response of each successive iteration, so
it bounds how many iterations are observed of the (otherwise unbounded)
loop; a raise inside `process_one_message` propagates out of `run`. -/
def MessageConsumer.run {J R : Type} (c : MessageConsumer J R)
    (json_loads : List Nat → Except String J) :
    List PullResponse → Except String Unit × List (ConsumerEffect R)
  | [] => (.ok (), [])
  | p :: ps =>
    if c.running then
      match c.process_one_message json_loads p with
      | (_, .error e, effs) => (.error e, effs)
      | (c', .ok _, effs) =>
        let rest := MessageConsumer.run c' json_loads ps
        (rest.1, effs ++ rest.2)
    else (.ok (), [])

/-- `AsyncMessageConsumer` instance state (`__init__` fields), identical in
shape to the synchronous variant. -/
structure AsyncMessageConsumer (J R : Type) where
  subscription : String
  handler : R → Except String Unit
  request_model : J → Except String R
  running : Bool

/-- `AsyncMessageConsumer.process_one_message`: the awaited steps run
strictly in sequence, so the suspend-capable body has the same sequential
semantics as the synchronous one. -/
def AsyncMessageConsumer.process_one_message {J R : Type}
    (c : AsyncMessageConsumer J R)
    (json_loads : List Nat → Except String J) (response : PullResponse) :
    AsyncMessageConsumer J R × Except String Unit × List (ConsumerEffect R) :=
  let pullEff : ConsumerEffect R :=
    .pull { subscription := c.subscription, max_messages := 1 } 30
  match response.received_messages with
  | [] => (c, .ok (), [pullEff])
  | received_message :: _ =>
    let effs := [pullEff, .json_loads received_message.message.data]
    match json_loads received_message.message.data with
    | .error e => (c, .error e, effs)
    | .ok message_data =>
      match c.request_model message_data with
      | .error e => (c, .error e, effs)
      | .ok request =>
        match c.handler request with
        | .error e => (c, .error e, effs ++ [.handle request])
        | .ok _ =>
          (c, .ok (), effs ++ [.handle request,
            .acknowledge { subscription := c.subscription,
                           ack_ids := [received_message.ack_id] }])

/-- `AsyncMessageConsumer.run`: `while self._running: await
self.process_one_message()`. -/
def AsyncMessageConsumer.run {J R : Type} (c : AsyncMessageConsumer J R)
    (json_loads : List Nat → Except String J) :
    List PullResponse → Except String Unit × List (ConsumerEffect R)
  | [] => (.ok (), [])
  | p :: ps =>
    if c.running then
      match c.process_one_message json_loads p with
      | (_, .error e, effs) => (.error e, effs)
      | (c', .ok _, effs) =>
        let rest := AsyncMessageConsumer.run c' json_loads ps
        (rest.1, effs ++ rest.2)
    else (.ok (), [])

/-!
## Theorems: publisher
-/

/-- With no colon in the list, `splitOnceColon` finds nothing. -/
theorem splitOnceColon_of_not_mem {l : List Char} (h : ':' ∉ l) :
    splitOnceColon l = none := by
  induction l with
  | nil => rfl
  | cons c cs ih =>
    have hc : ¬c = ':' := fun hceq => h (hceq ▸ List.mem_cons_self c cs)
    have hcs : ':' ∉ cs := fun hm => h (List.mem_cons_of_mem c hm)
    simp [splitOnceColon, hc, ih hcs]

/-- `splitOnceColon` splits at the first colon. -/
theorem splitOnceColon_append {a : List Char} (b : List Char) (h : ':' ∉ a) :
    splitOnceColon (a ++ ':' :: b) = some (a, b) := by
  induction a with
  | nil => simp [splitOnceColon]
  | cons c cs ih =>
    have hc : ¬c = ':' := fun hceq => h (hceq ▸ List.mem_cons_self c cs)
    have hcs : ':' ∉ cs := fun hm => h (List.mem_cons_of_mem c hm)
    simp [splitOnceColon, hc, ih hcs]

/-- C7: publish topic addressing.  A topic whose first colon splits it as
`exchange ++ ":" ++ routingKey` routes through that exchange with that
routing key; a topic with no colon routes via the default (empty-string)
exchange with the topic itself as routing key; in both cases the message
is published with `delivery_mode = 2` (persistent). -/
theorem publish_topic_addressing (data : List Nat)
    (kw : List (String × String)) :
    (∀ (a b : List Char), ':' ∉ a →
      (RabbitMQPublisher.publish (String.mk (a ++ ':' :: b)) data kw).1 =
        { exchange := String.mk a, routing_key := String.mk b,
          body := data, delivery_mode := 2 }) ∧
    (∀ topic : String, ':' ∉ topic.data →
      (RabbitMQPublisher.publish topic data kw).1 =
        { exchange := "", routing_key := topic,
          body := data, delivery_mode := 2 }) := by
  constructor
  · intro a b h
    simp [RabbitMQPublisher.publish, splitOnceColon_append b h]
  · intro topic h
    simp [RabbitMQPublisher.publish, splitOnceColon_of_not_mem h]

/-- C7 witness: concrete instances `"ex:rk"` and `"q"`. -/
theorem publish_topic_addressing_witness :
    (RabbitMQPublisher.publish
        (String.mk (['e', 'x'] ++ ':' :: ['r', 'k'])) [1, 2] []).1 =
      { exchange := String.mk ['e', 'x'], routing_key := String.mk ['r', 'k'],
        body := [1, 2], delivery_mode := 2 } ∧
    (RabbitMQPublisher.publish "q" [3] []).1 =
      { exchange := "", routing_key := "q", body := [3], delivery_mode := 2 } :=
  ⟨(publish_topic_addressing [1, 2] []).1 ['e', 'x'] ['r', 'k'] (by decide),
   (publish_topic_addressing [3] []).2 "q" (by decide)⟩

/-- C9: publish is insensitive to the `**kwargs` attributes argument — two
calls differing only in the keyword arguments issue the same
`basic_publish` broker call and return the same result. -/
theorem publish_kwargs_insensitive (topic : String) (data : List Nat)
    (kw kw' : List (String × String)) :
    RabbitMQPublisher.publish topic data kw =
      RabbitMQPublisher.publish topic data kw' := rfl

/-!
## Theorems: subscriber pull
-/

/-- C6: every `pull` on the RabbitMQ subscriber surfaces at most one
message regardless of the requested `max_messages`; when the inactivity
timeout elapses with no delivery the result is the empty sequence,
returned as a normal value (the embedding is a total function — the
timeout path raises nothing). -/
theorem pull_at_most_one (st : SubState) (request : PullRequest)
    (timeout : Nat) (delivered : Option (Nat × List Nat)) :
    ((RabbitMQSubscriber.pull st request timeout delivered).2.1.received_messages).length ≤ 1 ∧
    (delivered = none →
      (RabbitMQSubscriber.pull st request timeout delivered).2.1 =
        { received_messages := [] } ∧
      (RabbitMQSubscriber.pull st request timeout delivered).1 = st) ∧
    (∀ m' : Nat,
      RabbitMQSubscriber.pull st
          { subscription := request.subscription, max_messages := m' }
          timeout delivered =
        RabbitMQSubscriber.pull st request timeout delivered) := by
  refine ⟨?_, ?_, ?_⟩
  · cases delivered with
    | none => simp [RabbitMQSubscriber.pull]
    | some d => simp [RabbitMQSubscriber.pull]
  · intro h
    subst h
    exact ⟨rfl, rfl⟩
  · intro m'
    cases delivered with
    | none => rfl
    | some d => rfl

/-- C6 witness: a delivered message and a timeout, concretely. -/
theorem pull_at_most_one_witness :
    ((RabbitMQSubscriber.pull { pending_acks := [] } { subscription := "q", max_messages := 5 }
        30 (some (7, [1, 2]))).2.1.received_messages).length ≤ 1 ∧
    (RabbitMQSubscriber.pull { pending_acks := [] } { subscription := "q", max_messages := 5 }
        30 none).2.1 = { received_messages := [] } :=
  ⟨(pull_at_most_one { pending_acks := [] } { subscription := "q", max_messages := 5 }
      30 (some (7, [1, 2]))).1,
   ((pull_at_most_one { pending_acks := [] } { subscription := "q", max_messages := 5 }
      30 none).2.1 rfl).1⟩

/-!
## Theorems: subscriber acknowledge

Dict lemmas first, then the characterisation of the `acknowledge` loop.
`keysNodup` is the dict well-formedness every Python dict satisfies by
construction.
-/

/-- Keys of the correlation table are pairwise distinct (true of every
Python dict). -/
def keysNodup (st : SubState) : Prop :=
  (st.pending_acks.map Prod.fst).Nodup

/-- A lookup misses exactly when no entry has the key. -/
theorem dictGet_eq_none_iff (m : List (String × Nat)) (k : String) :
    dictGet m k = none ↔ ∀ p ∈ m, p.1 ≠ k := by
  induction m with
  | nil => simp [dictGet]
  | cons p rest ih =>
    cases p with
    | mk k' v' =>
      by_cases h : k' = k
      · subst h
        simp [dictGet]
      · simp [dictGet, h, ih]

/-- Removing one key leaves lookups of other keys unchanged. -/
theorem dictGet_dictRemove_ne (m : List (String × Nat)) {k a : String}
    (h : k ≠ a) : dictGet (dictRemove m a) k = dictGet m k := by
  induction m with
  | nil => rfl
  | cons p rest ih =>
    cases p with
    | mk k' v' =>
      by_cases h' : k' = a
      · subst h'
        have : ¬k' = k := fun hk => h (hk ▸ rfl)
        simp [dictRemove, dictGet, this]
      · by_cases hk : k' = k
        · subst hk
          simp [dictRemove, h', dictGet]
        · simp [dictRemove, h', dictGet, hk, ih]

/-- On a table with distinct keys, removing a key is filtering it out. -/
theorem dictRemove_eq_filter (m : List (String × Nat)) (k : String)
    (h : (m.map Prod.fst).Nodup) :
    dictRemove m k = m.filter (fun p => !(p.1 == k)) := by
  induction m with
  | nil => rfl
  | cons p rest ih =>
    cases p with
    | mk k' v' =>
      have hrest : (rest.map Prod.fst).Nodup := (List.nodup_cons.mp h).2
      by_cases hk : k' = k
      · subst hk
        have hnot : k' ∉ rest.map Prod.fst := (List.nodup_cons.mp h).1
        have hall : ∀ p ∈ rest, (!(p.1 == k')) = true := by
          intro p hp
          have : p.1 ≠ k' := fun he => hnot (he ▸ List.mem_map_of_mem Prod.fst hp)
          simp [this]
        simp only [dictRemove, if_pos rfl, List.filter_cons]
        simp [List.filter_eq_self.mpr hall]
      · simp [dictRemove, hk, List.filter_cons, Ne.symm hk, ih hrest,
          show (k' == k) = false from beq_eq_false_iff_ne.mpr hk]

/-- Filtering preserves key distinctness. -/
theorem keysNodup_filter (m : List (String × Nat)) (q : String × Nat → Bool)
    (h : (m.map Prod.fst).Nodup) : (((m.filter q).map Prod.fst)).Nodup :=
  h.sublist ((m.filter_sublist).map Prod.fst)

/-- The `acknowledge` loop, state part: on a well-formed table, processing
`ids` removes exactly the entries whose key occurs in `ids` and keeps all
other entries untouched. -/
theorem ackList_state (ids : List String) (st : SubState) (hk : keysNodup st) :
    (ackList st ids).1.pending_acks =
      st.pending_acks.filter (fun p => !(ids.contains p.1)) := by
  induction ids generalizing st with
  | nil =>
    simp [ackList]
  | cons a ids ih =>
    rcases st with ⟨m⟩
    cases hget : dictGet m a with
    | none =>
      have hne : ∀ p ∈ m, p.1 ≠ a := (dictGet_eq_none_iff m a).mp hget
      have := ih ⟨m⟩ hk
      simp only [ackList, ackOne, hget]
      rw [this]
      refine List.filter_congr ?_
      intro p hp
      simp [List.contains_cons, hne p hp]
    | some tag =>
      have hrm : dictRemove m a = m.filter (fun p => !(p.1 == a)) :=
        dictRemove_eq_filter m a hk
      have hk' : keysNodup ⟨dictRemove m a⟩ := by
        show ((dictRemove m a).map Prod.fst).Nodup
        rw [hrm]
        exact keysNodup_filter m _ hk
      have := ih ⟨dictRemove m a⟩ hk'
      simp only [ackList, ackOne, hget]
      rw [this]
      show (dictRemove m a).filter _ = _
      rw [hrm, List.filter_filter]
      refine List.filter_congr ?_
      intro p hp
      simp only [List.contains_cons, Bool.not_or]
      cases h1 : decide (p.1 ∈ ids) <;> cases h2 : p.1 == a <;> simp_all

/-- The `acknowledge` loop, broker-call part: with distinct requested ids
on a well-formed table, exactly the ids present in the table produce a
`basic_ack`, each with the delivery tag the original table maps it to. -/
theorem ackList_calls (ids : List String) (st : SubState) (hk : keysNodup st)
    (hi : ids.Nodup) :
    (ackList st ids).2 =
      ids.filterMap (fun a => (dictGet st.pending_acks a).map .basic_ack) := by
  induction ids generalizing st with
  | nil => simp [ackList]
  | cons a ids ih =>
    rcases st with ⟨m⟩
    have hi' : ids.Nodup := (List.nodup_cons.mp hi).2
    have hanotin : a ∉ ids := (List.nodup_cons.mp hi).1
    cases hget : dictGet m a with
    | none =>
      have := ih ⟨m⟩ hk hi'
      simp only [ackList, ackOne, hget]
      simp [List.filterMap_cons, hget, this]
    | some tag =>
      have hrm : dictRemove m a = m.filter (fun p => !(p.1 == a)) :=
        dictRemove_eq_filter m a hk
      have hk' : keysNodup ⟨dictRemove m a⟩ := by
        show ((dictRemove m a).map Prod.fst).Nodup
        rw [hrm]
        exact keysNodup_filter m _ hk
      have hrec := ih ⟨dictRemove m a⟩ hk' hi'
      simp only [ackList, ackOne, hget]
      simp only [List.filterMap_cons, hget, Option.map_some]
      rw [hrec]
      have : ∀ b ∈ ids, dictGet (dictRemove m a) b = dictGet m b := by
        intro b hb
        exact dictGet_dictRemove_ne m (fun he => hanotin (he ▸ hb))
      simp only [List.cons_append, List.nil_append]
      congr 1
      exact List.filterMap_congr fun b hb => by rw [this b hb]

/-- After popping a key, looking it up again misses. -/
theorem dictGet_dictRemove_self (m : List (String × Nat)) (a : String)
    (h : (m.map Prod.fst).Nodup) : dictGet (dictRemove m a) a = none := by
  rw [dictRemove_eq_filter m a h, dictGet_eq_none_iff]
  intro p hp
  have hmem := (List.mem_filter.mp hp).2
  simpa using hmem

/-- Running the `acknowledge` loop body twice on the same ack id: the
second run finds nothing, changes nothing and issues no broker call. -/
theorem ackOne_twice (st : SubState) (a : String) (hk : keysNodup st) :
    ackOne (ackOne st a).1 a = ((ackOne st a).1, []) := by
  cases hget : dictGet st.pending_acks a with
  | none => simp [ackOne, hget]
  | some tag =>
    have hnone : dictGet (dictRemove st.pending_acks a) a = none :=
      dictGet_dictRemove_self st.pending_acks a hk
    simp [ackOne, hget, hnone]

/-- C1: acknowledge is idempotent and never errors on unknown ids.  On a
well-formed table and a duplicate-free request: (i) exactly the entries
whose ack id is requested are removed, all others are untouched — in
particular an unknown ack id changes nothing; (ii) exactly the requested
ids present in the table produce a `basic_ack`, once each, with the
delivery tag the table maps them to — an unknown id produces no broker
call (and, the embedding being total, no error); (iii) re-acknowledging an
already acknowledged id is a complete no-op. -/
theorem acknowledge_idempotent (st : SubState) (request : AcknowledgeRequest)
    (hk : keysNodup st) (hi : request.ack_ids.Nodup) :
    (RabbitMQSubscriber.acknowledge st request).1.pending_acks =
      st.pending_acks.filter (fun p => !(request.ack_ids.contains p.1)) ∧
    (RabbitMQSubscriber.acknowledge st request).2 =
      request.ack_ids.filterMap
        (fun a => (dictGet st.pending_acks a).map .basic_ack) ∧
    (∀ a : String,
      RabbitMQSubscriber.acknowledge
          (RabbitMQSubscriber.acknowledge st
            { subscription := request.subscription, ack_ids := [a] }).1
          { subscription := request.subscription, ack_ids := [a] } =
        ((RabbitMQSubscriber.acknowledge st
            { subscription := request.subscription, ack_ids := [a] }).1, [])) := by
  refine ⟨ackList_state request.ack_ids st hk,
          ackList_calls request.ack_ids st hk hi, ?_⟩
  intro a
  show ackList (ackList st [a]).1 [a] = ((ackList st [a]).1, [])
  have htwice := ackOne_twice st a hk
  simp only [ackList]
  rw [htwice]
  rfl

/-- C1 witness: a table `{"1" ↦ 1, "2" ↦ 2}`, acknowledging the known id
`"1"` and the unknown id `"3"`, then re-acknowledging `"1"`. -/
theorem acknowledge_idempotent_witness :
    (RabbitMQSubscriber.acknowledge { pending_acks := [("1", 1), ("2", 2)] }
        { subscription := "q", ack_ids := ["1", "3"] }).1.pending_acks =
      List.filter (fun p => !(["1", "3"].contains p.1)) [("1", 1), ("2", 2)] ∧
    (RabbitMQSubscriber.acknowledge { pending_acks := [("1", 1), ("2", 2)] }
        { subscription := "q", ack_ids := ["1", "3"] }).2 =
      List.filterMap (fun a => (dictGet [("1", 1), ("2", 2)] a).map .basic_ack)
        ["1", "3"] ∧
    RabbitMQSubscriber.acknowledge
        (RabbitMQSubscriber.acknowledge { pending_acks := [("1", 1), ("2", 2)] }
          { subscription := "q", ack_ids := ["1"] }).1
        { subscription := "q", ack_ids := ["1"] } =
      ((RabbitMQSubscriber.acknowledge { pending_acks := [("1", 1), ("2", 2)] }
          { subscription := "q", ack_ids := ["1"] }).1, []) := by
  have h := acknowledge_idempotent { pending_acks := [("1", 1), ("2", 2)] }
    { subscription := "q", ack_ids := ["1", "3"] } (by unfold keysNodup; decide)
    (by decide)
  exact ⟨h.1, h.2.1, h.2.2 "1"⟩

/-!
## Theorems: correlation-table invariant
-/

/-- Inserting a fresh key appends the new entry. -/
theorem dictInsert_of_not_mem (m : List (String × Nat)) {k : String} (v : Nat)
    (h : k ∉ m.map Prod.fst) : dictInsert m k v = m ++ [(k, v)] := by
  induction m with
  | nil => rfl
  | cons p rest ih =>
    obtain ⟨k', v'⟩ := p
    simp only [List.map_cons, List.mem_cons] at h
    push_neg at h
    have h1 : ¬k' = k := fun he => h.1 he.symm
    simp [dictInsert, h1, ih h.2]

/-- Generalised invariant: starting from a table that is exactly the
canonical image of the outstanding tags `acc`, any event history whose
deliveries are fresh keeps the table canonical. -/
theorem runEventsFrom_pending (evs : List SubEvent) :
    ∀ (acc : List Nat) (st : SubState),
      st.pending_acks = acc.map (fun t => (toString t, t)) →
      (acc.map toString).Nodup →
      freshEvents acc evs = true →
      (runEventsFrom st evs).pending_acks =
        (pendingFrom acc evs).map (fun t => (toString t, t)) := by
  induction evs with
  | nil => intro acc st hst _ _; exact hst
  | cons e evs ih =>
    intro acc st hst hnd hfresh
    cases e with
    | pull request timeout delivered =>
      cases delivered with
      | none =>
        have hstep : stepEvent st (.pull request timeout none) = st := rfl
        rw [runEventsFrom, hstep]
        exact ih acc st hst hnd hfresh
      | some d =>
        obtain ⟨tag, body⟩ := d
        simp only [freshEvents, Bool.and_eq_true, Bool.not_eq_true'] at hfresh
        obtain ⟨hnotin, hfresh'⟩ := hfresh
        have hnotin' : toString tag ∉ acc.map toString := by
          intro hmem
          rw [List.contains_eq_any_beq] at hnotin
          have : (acc.map toString).any (fun x => toString tag == x) = true := by
            rw [List.any_eq_true]
            exact ⟨toString tag, hmem, by simp⟩
          rw [this] at hnotin
          cases hnotin
        have hkeys : toString tag ∉ (acc.map (fun t => (toString t, t))).map Prod.fst := by
          rw [List.map_map]
          simpa using hnotin'
        have hstep : (stepEvent st (.pull request timeout (some (tag, body)))).pending_acks =
            ((acc ++ [tag]).map (fun t => (toString t, t))) := by
          show (dictInsert st.pending_acks (toString tag) tag) = _
          rw [hst, dictInsert_of_not_mem _ tag hkeys, List.map_append]
          rfl
        rw [runEventsFrom]
        have hnd' : ((acc ++ [tag]).map toString).Nodup := by
          rw [List.map_append]
          simp only [List.nodup_append, List.map_cons, List.map_nil]
          exact ⟨hnd, List.nodup_singleton _, by
            intro x hx hx'
            simp only [List.mem_singleton] at hx'
            exact hnotin' (hx' ▸ hx)⟩
        have := ih (acc ++ [tag]) (stepEvent st (.pull request timeout (some (tag, body))))
          hstep hnd' hfresh'
        rw [this]
        rfl
    | ack request =>
      have hk : keysNodup st := by
        show (st.pending_acks.map Prod.fst).Nodup
        rw [hst, List.map_map]
        simpa using hnd
      have hstep : (stepEvent st (.ack request)).pending_acks =
          ((acc.filter fun t => !request.ack_ids.contains (toString t)).map
            (fun t => (toString t, t))) := by
        show (ackList st request.ack_ids).1.pending_acks = _
        rw [ackList_state request.ack_ids st hk, hst,
          List.filter_map (fun t => (toString t, t)) acc]
        rfl
      have hnd' : ((acc.filter fun t => !request.ack_ids.contains (toString t)).map
          toString).Nodup := by
        show ((acc.filter ((fun s => !request.ack_ids.contains s) ∘ toString)).map
          toString).Nodup
        rw [← List.filter_map toString acc]
        exact hnd.sublist (List.filter_sublist _)
      simp only [freshEvents] at hfresh
      rw [runEventsFrom]
      have := ih _ (stepEvent st (.ack request)) hstep hnd' hfresh
      rw [this]
      rfl

/-- C2: correlation-table invariant.  In every state a subscriber instance
reaches from construction through a history of `pull` and `acknowledge`
calls whose broker deliveries are fresh (the broker never reuses an
outstanding delivery tag), the `_pending_acks` table holds exactly one
entry per message surfaced by `pull` and not yet acknowledged, mapping the
minted ack id — the string form of the delivery tag — to that tag; by the
shape of `pendingFrom`, entries arise only at `pull` events that surface a
message and disappear only at `acknowledge` events naming them. -/
theorem correlation_table_invariant (evs : List SubEvent)
    (hfresh : freshEvents [] evs = true) :
    (runEvents evs).pending_acks =
      (pendingSpec evs).map (fun t => (toString t, t)) :=
  runEventsFrom_pending evs [] { pending_acks := [] } rfl (by simp) hfresh

/-- C2 witness: pull tag 1, time out once, acknowledge `"1"`, pull tag 2;
the table ends as `{"2" ↦ 2}`. -/
theorem correlation_table_invariant_witness :
    (runEvents
      [.pull { subscription := "q", max_messages := 1 } 30 (some (1, [104])),
       .pull { subscription := "q", max_messages := 1 } 30 none,
       .ack { subscription := "q", ack_ids := ["1"] },
       .pull { subscription := "q", max_messages := 1 } 30 (some (2, [5]))]).pending_acks =
    (pendingSpec
      [.pull { subscription := "q", max_messages := 1 } 30 (some (1, [104])),
       .pull { subscription := "q", max_messages := 1 } 30 none,
       .ack { subscription := "q", ack_ids := ["1"] },
       .pull { subscription := "q", max_messages := 1 } 30 (some (2, [5]))]).map
      (fun t => (toString t, t)) :=
  correlation_table_invariant
    [.pull { subscription := "q", max_messages := 1 } 30 (some (1, [104])),
     .pull { subscription := "q", max_messages := 1 } 30 none,
     .ack { subscription := "q", ack_ids := ["1"] },
     .pull { subscription := "q", max_messages := 1 } 30 (some (2, [5]))]
    (by decide)

/-!
## Theorems: consumer loop
-/

/-- `process_one_message` never mutates the consumer's own state (no field
of `self` is assigned in the body). -/
theorem process_one_fst {J R : Type} (c : MessageConsumer J R)
    (jl : List Nat → Except String J) (response : PullResponse) :
    (c.process_one_message jl response).1 = c := by
  rcases response with ⟨msgs⟩
  cases msgs with
  | nil => rfl
  | cons rm rest =>
    simp only [MessageConsumer.process_one_message]
    cases h1 : jl rm.message.data with
    | error e => simp [h1]
    | ok v =>
      cases h2 : c.request_model v with
      | error e => simp [h1, h2]
      | ok r =>
        cases h3 : c.handler r with
        | error e => simp [h1, h2, h3]
        | ok u => simp [h1, h2, h3]

/-- Async variant of `process_one_fst`. -/
theorem async_process_one_fst {J R : Type} (c : AsyncMessageConsumer J R)
    (jl : List Nat → Except String J) (response : PullResponse) :
    (c.process_one_message jl response).1 = c := by
  rcases response with ⟨msgs⟩
  cases msgs with
  | nil => rfl
  | cons rm rest =>
    simp only [AsyncMessageConsumer.process_one_message]
    cases h1 : jl rm.message.data with
    | error e => simp [h1]
    | ok v =>
      cases h2 : c.request_model v with
      | error e => simp [h1, h2]
      | ok r =>
        cases h3 : c.handler r with
        | error e => simp [h1, h2, h3]
        | ok u => simp [h1, h2, h3]

/-- On a non-empty pull response, `process_one_message` acts on the first
received message only: the rest of the batch is not inspected. -/
theorem process_one_first (J R : Type) (c : MessageConsumer J R)
    (jl : List Nat → Except String J) (m1 : ReceivedMessage)
    (ms : List ReceivedMessage) :
    c.process_one_message jl { received_messages := m1 :: ms } =
      c.process_one_message jl { received_messages := [m1] } := rfl

/-- Async variant of `process_one_first`. -/
theorem async_process_one_first (J R : Type) (c : AsyncMessageConsumer J R)
    (jl : List Nat → Except String J) (m1 : ReceivedMessage)
    (ms : List ReceivedMessage) :
    c.process_one_message jl { received_messages := m1 :: ms } =
      c.process_one_message jl { received_messages := [m1] } := rfl

/-- Branch computation: decode failure. -/
theorem process_one_json_error {J R : Type} (c : MessageConsumer J R)
    (jl : List Nat → Except String J) (response : PullResponse)
    (rm : ReceivedMessage) (rest : List ReceivedMessage) (e : String)
    (hresp : response.received_messages = rm :: rest)
    (hj : jl rm.message.data = .error e) :
    c.process_one_message jl response =
      (c, .error e,
       [.pull { subscription := c.subscription, max_messages := 1 } 30,
        .json_loads rm.message.data]) := by
  rcases response with ⟨msgs⟩
  simp only at hresp
  subst hresp
  simp [MessageConsumer.process_one_message, hj]

/-- Async variant of `process_one_json_error`. -/
theorem async_process_one_json_error {J R : Type} (c : AsyncMessageConsumer J R)
    (jl : List Nat → Except String J) (response : PullResponse)
    (rm : ReceivedMessage) (rest : List ReceivedMessage) (e : String)
    (hresp : response.received_messages = rm :: rest)
    (hj : jl rm.message.data = .error e) :
    c.process_one_message jl response =
      (c, .error e,
       [.pull { subscription := c.subscription, max_messages := 1 } 30,
        .json_loads rm.message.data]) := by
  rcases response with ⟨msgs⟩
  simp only at hresp
  subst hresp
  simp [AsyncMessageConsumer.process_one_message, hj]

/-- Branch computation: validation failure. -/
theorem process_one_validate_error {J R : Type} (c : MessageConsumer J R)
    (jl : List Nat → Except String J) (response : PullResponse)
    (rm : ReceivedMessage) (rest : List ReceivedMessage) (j : J) (e : String)
    (hresp : response.received_messages = rm :: rest)
    (hj : jl rm.message.data = .ok j)
    (hv : c.request_model j = .error e) :
    c.process_one_message jl response =
      (c, .error e,
       [.pull { subscription := c.subscription, max_messages := 1 } 30,
        .json_loads rm.message.data]) := by
  rcases response with ⟨msgs⟩
  simp only at hresp
  subst hresp
  simp [MessageConsumer.process_one_message, hj, hv]

/-- Async variant of `process_one_validate_error`. -/
theorem async_process_one_validate_error {J R : Type}
    (c : AsyncMessageConsumer J R)
    (jl : List Nat → Except String J) (response : PullResponse)
    (rm : ReceivedMessage) (rest : List ReceivedMessage) (j : J) (e : String)
    (hresp : response.received_messages = rm :: rest)
    (hj : jl rm.message.data = .ok j)
    (hv : c.request_model j = .error e) :
    c.process_one_message jl response =
      (c, .error e,
       [.pull { subscription := c.subscription, max_messages := 1 } 30,
        .json_loads rm.message.data]) := by
  rcases response with ⟨msgs⟩
  simp only at hresp
  subst hresp
  simp [AsyncMessageConsumer.process_one_message, hj, hv]

/-- Branch computation: handler failure. -/
theorem process_one_handler_error {J R : Type} (c : MessageConsumer J R)
    (jl : List Nat → Except String J) (response : PullResponse)
    (rm : ReceivedMessage) (rest : List ReceivedMessage) (j : J) (r : R)
    (e : String)
    (hresp : response.received_messages = rm :: rest)
    (hj : jl rm.message.data = .ok j)
    (hv : c.request_model j = .ok r)
    (hh : c.handler r = .error e) :
    c.process_one_message jl response =
      (c, .error e,
       [.pull { subscription := c.subscription, max_messages := 1 } 30,
        .json_loads rm.message.data, .handle r]) := by
  rcases response with ⟨msgs⟩
  simp only at hresp
  subst hresp
  simp [MessageConsumer.process_one_message, hj, hv, hh]

/-- Async variant of `process_one_handler_error`. -/
theorem async_process_one_handler_error {J R : Type}
    (c : AsyncMessageConsumer J R)
    (jl : List Nat → Except String J) (response : PullResponse)
    (rm : ReceivedMessage) (rest : List ReceivedMessage) (j : J) (r : R)
    (e : String)
    (hresp : response.received_messages = rm :: rest)
    (hj : jl rm.message.data = .ok j)
    (hv : c.request_model j = .ok r)
    (hh : c.handler r = .error e) :
    c.process_one_message jl response =
      (c, .error e,
       [.pull { subscription := c.subscription, max_messages := 1 } 30,
        .json_loads rm.message.data, .handle r]) := by
  rcases response with ⟨msgs⟩
  simp only at hresp
  subst hresp
  simp [AsyncMessageConsumer.process_one_message, hj, hv, hh]

/-- Branch computation: the fully successful path. -/
theorem process_one_success {J R : Type} (c : MessageConsumer J R)
    (jl : List Nat → Except String J) (response : PullResponse)
    (rm : ReceivedMessage) (rest : List ReceivedMessage) (j : J) (r : R)
    (hresp : response.received_messages = rm :: rest)
    (hj : jl rm.message.data = .ok j)
    (hv : c.request_model j = .ok r)
    (hh : c.handler r = .ok ()) :
    c.process_one_message jl response =
      (c, .ok (),
       [.pull { subscription := c.subscription, max_messages := 1 } 30,
        .json_loads rm.message.data, .handle r,
        .acknowledge { subscription := c.subscription,
                       ack_ids := [rm.ack_id] }]) := by
  rcases response with ⟨msgs⟩
  simp only at hresp
  subst hresp
  simp [MessageConsumer.process_one_message, hj, hv, hh]

/-- Async variant of `process_one_success`. -/
theorem async_process_one_success {J R : Type} (c : AsyncMessageConsumer J R)
    (jl : List Nat → Except String J) (response : PullResponse)
    (rm : ReceivedMessage) (rest : List ReceivedMessage) (j : J) (r : R)
    (hresp : response.received_messages = rm :: rest)
    (hj : jl rm.message.data = .ok j)
    (hv : c.request_model j = .ok r)
    (hh : c.handler r = .ok ()) :
    c.process_one_message jl response =
      (c, .ok (),
       [.pull { subscription := c.subscription, max_messages := 1 } 30,
        .json_loads rm.message.data, .handle r,
        .acknowledge { subscription := c.subscription,
                       ack_ids := [rm.ack_id] }]) := by
  rcases response with ⟨msgs⟩
  simp only at hresp
  subst hresp
  simp [AsyncMessageConsumer.process_one_message, hj, hv, hh]

/-- Every `process_one_message` call begins by pulling with
`max_messages = 1` and `timeout = 30`. -/
theorem process_one_head {J R : Type} (c : MessageConsumer J R)
    (jl : List Nat → Except String J) (response : PullResponse) :
    ((c.process_one_message jl response).2.2).head? =
      some (.pull { subscription := c.subscription, max_messages := 1 } 30) := by
  rcases response with ⟨msgs⟩
  cases msgs with
  | nil => rfl
  | cons rm rest =>
    simp only [MessageConsumer.process_one_message]
    cases h1 : jl rm.message.data with
    | error e => simp [h1]
    | ok v =>
      cases h2 : c.request_model v with
      | error e => simp [h1, h2]
      | ok r =>
        cases h3 : c.handler r with
        | error e => simp [h1, h2, h3]
        | ok u => simp [h1, h2, h3]

/-- Async variant of `process_one_head`. -/
theorem async_process_one_head {J R : Type} (c : AsyncMessageConsumer J R)
    (jl : List Nat → Except String J) (response : PullResponse) :
    ((c.process_one_message jl response).2.2).head? =
      some (.pull { subscription := c.subscription, max_messages := 1 } 30) := by
  rcases response with ⟨msgs⟩
  cases msgs with
  | nil => rfl
  | cons rm rest =>
    simp only [AsyncMessageConsumer.process_one_message]
    cases h1 : jl rm.message.data with
    | error e => simp [h1]
    | ok v =>
      cases h2 : c.request_model v with
      | error e => simp [h1, h2]
      | ok r =>
        cases h3 : c.handler r with
        | error e => simp [h1, h2, h3]
        | ok u => simp [h1, h2, h3]

/-- `run` with the running flag down does nothing, whatever is queued. -/
theorem run_not_running {J R : Type} (c : MessageConsumer J R)
    (jl : List Nat → Except String J) (pulls : List PullResponse)
    (h : c.running = false) : c.run jl pulls = (.ok (), []) := by
  cases pulls with
  | nil => rfl
  | cons p ps => simp [MessageConsumer.run, h]

/-- Async variant of `run_not_running`. -/
theorem async_run_not_running {J R : Type} (c : AsyncMessageConsumer J R)
    (jl : List Nat → Except String J) (pulls : List PullResponse)
    (h : c.running = false) : c.run jl pulls = (.ok (), []) := by
  cases pulls with
  | nil => rfl
  | cons p ps => simp [AsyncMessageConsumer.run, h]

/-- `run` with the running flag up executes one `process_one_message` per
queued pull response (when none of them raises): the flag, which only
`start()`/`stop()` mutate, is re-checked each iteration and stays true. -/
theorem run_all_iterations {J R : Type} (c : MessageConsumer J R)
    (jl : List Nat → Except String J) (pulls : List PullResponse)
    (h : c.running = true)
    (hok : ∀ p ∈ pulls, (c.process_one_message jl p).2.1 = .ok ()) :
    c.run jl pulls =
      (.ok (), (pulls.map (fun p => (c.process_one_message jl p).2.2)).flatten) := by
  induction pulls with
  | nil => simp [MessageConsumer.run]
  | cons p ps ih =>
    rcases hx : c.process_one_message jl p with ⟨c', res, effs⟩
    have hc' : c' = c := by
      have := process_one_fst c jl p
      rw [hx] at this
      exact this
    have hres : res = .ok () := by
      have := hok p (List.mem_cons_self p ps)
      rw [hx] at this
      exact this
    subst hc'
    subst hres
    have hih := ih (fun q hq => hok q (List.mem_cons_of_mem p hq))
    simp [MessageConsumer.run, h, hx, hih]

/-- Async variant of `run_all_iterations`. -/
theorem async_run_all_iterations {J R : Type} (c : AsyncMessageConsumer J R)
    (jl : List Nat → Except String J) (pulls : List PullResponse)
    (h : c.running = true)
    (hok : ∀ p ∈ pulls, (c.process_one_message jl p).2.1 = .ok ()) :
    c.run jl pulls =
      (.ok (), (pulls.map (fun p => (c.process_one_message jl p).2.2)).flatten) := by
  induction pulls with
  | nil => simp [AsyncMessageConsumer.run]
  | cons p ps ih =>
    rcases hx : c.process_one_message jl p with ⟨c', res, effs⟩
    have hc' : c' = c := by
      have := async_process_one_fst c jl p
      rw [hx] at this
      exact this
    have hres : res = .ok () := by
      have := hok p (List.mem_cons_self p ps)
      rw [hx] at this
      exact this
    subst hc'
    subst hres
    have hih := ih (fun q hq => hok q (List.mem_cons_of_mem p hq))
    simp [AsyncMessageConsumer.run, h, hx, hih]

/-- C3: for a pulled message whose payload fails JSON decoding or schema
validation, and for one whose handler raises, `process_one_message` (sync
and async) propagates that exact error to its caller and the trace ends
without an `acknowledge` call — the message is left unacknowledged, the
error is not swallowed, and there is no retry (exactly one pull occurs). -/
theorem process_one_error_propagates {J R : Type}
    (c : MessageConsumer J R) (ca : AsyncMessageConsumer J R)
    (jl : List Nat → Except String J) (response : PullResponse)
    (rm : ReceivedMessage) (rest : List ReceivedMessage)
    (hresp : response.received_messages = rm :: rest) :
    (∀ e, jl rm.message.data = .error e →
      c.process_one_message jl response =
        (c, .error e,
         [.pull { subscription := c.subscription, max_messages := 1 } 30,
          .json_loads rm.message.data])) ∧
    (∀ j e, jl rm.message.data = .ok j → c.request_model j = .error e →
      c.process_one_message jl response =
        (c, .error e,
         [.pull { subscription := c.subscription, max_messages := 1 } 30,
          .json_loads rm.message.data])) ∧
    (∀ j r e, jl rm.message.data = .ok j → c.request_model j = .ok r →
      c.handler r = .error e →
      c.process_one_message jl response =
        (c, .error e,
         [.pull { subscription := c.subscription, max_messages := 1 } 30,
          .json_loads rm.message.data, .handle r])) ∧
    (∀ e, jl rm.message.data = .error e →
      ca.process_one_message jl response =
        (ca, .error e,
         [.pull { subscription := ca.subscription, max_messages := 1 } 30,
          .json_loads rm.message.data])) ∧
    (∀ j e, jl rm.message.data = .ok j → ca.request_model j = .error e →
      ca.process_one_message jl response =
        (ca, .error e,
         [.pull { subscription := ca.subscription, max_messages := 1 } 30,
          .json_loads rm.message.data])) ∧
    (∀ j r e, jl rm.message.data = .ok j → ca.request_model j = .ok r →
      ca.handler r = .error e →
      ca.process_one_message jl response =
        (ca, .error e,
         [.pull { subscription := ca.subscription, max_messages := 1 } 30,
          .json_loads rm.message.data, .handle r])) :=
  ⟨fun e hj => process_one_json_error c jl response rm rest e hresp hj,
   fun j e hj hv => process_one_validate_error c jl response rm rest j e hresp hj hv,
   fun j r e hj hv hh =>
     process_one_handler_error c jl response rm rest j r e hresp hj hv hh,
   fun e hj => async_process_one_json_error ca jl response rm rest e hresp hj,
   fun j e hj hv =>
     async_process_one_validate_error ca jl response rm rest j e hresp hj hv,
   fun j r e hj hv hh =>
     async_process_one_handler_error ca jl response rm rest j r e hresp hj hv hh⟩

/-- C3 witness: concrete decode, validation and handler failures, sync and
async. -/
theorem process_one_error_propagates_witness :
    (MessageConsumer.process_one_message
        { subscription := "s", handler := fun _ => Except.ok (),
          request_model := fun (n : Nat) => Except.ok n, running := true }
        (fun _ => Except.error "jerr")
        { received_messages := [{ message := { data := [0] }, ack_id := "a1" }] } =
      ({ subscription := "s", handler := fun _ => Except.ok (),
         request_model := fun (n : Nat) => Except.ok n, running := true },
       Except.error "jerr",
       [.pull { subscription := "s", max_messages := 1 } 30, .json_loads [0]])) ∧
    (MessageConsumer.process_one_message
        { subscription := "s", handler := fun (_ : Nat) => Except.ok (),
          request_model := fun (_ : Nat) => Except.error "verr", running := true }
        (fun d => Except.ok d.length)
        { received_messages := [{ message := { data := [0] }, ack_id := "a1" }] } =
      ({ subscription := "s", handler := fun (_ : Nat) => Except.ok (),
         request_model := fun (_ : Nat) => Except.error "verr", running := true },
       Except.error "verr",
       [.pull { subscription := "s", max_messages := 1 } 30, .json_loads [0]])) ∧
    (MessageConsumer.process_one_message
        { subscription := "s", handler := fun (_ : Nat) => Except.error "herr",
          request_model := fun (n : Nat) => Except.ok n, running := true }
        (fun d => Except.ok d.length)
        { received_messages := [{ message := { data := [0] }, ack_id := "a1" }] } =
      ({ subscription := "s", handler := fun (_ : Nat) => Except.error "herr",
         request_model := fun (n : Nat) => Except.ok n, running := true },
       Except.error "herr",
       [.pull { subscription := "s", max_messages := 1 } 30, .json_loads [0],
        .handle 1])) ∧
    (AsyncMessageConsumer.process_one_message
        { subscription := "s", handler := fun _ => Except.ok (),
          request_model := fun (n : Nat) => Except.ok n, running := true }
        (fun _ => Except.error "jerr")
        { received_messages := [{ message := { data := [0] }, ack_id := "a1" }] } =
      ({ subscription := "s", handler := fun _ => Except.ok (),
         request_model := fun (n : Nat) => Except.ok n, running := true },
       Except.error "jerr",
       [.pull { subscription := "s", max_messages := 1 } 30, .json_loads [0]])) ∧
    (AsyncMessageConsumer.process_one_message
        { subscription := "s", handler := fun (_ : Nat) => Except.error "herr",
          request_model := fun (n : Nat) => Except.ok n, running := true }
        (fun d => Except.ok d.length)
        { received_messages := [{ message := { data := [0] }, ack_id := "a1" }] } =
      ({ subscription := "s", handler := fun (_ : Nat) => Except.error "herr",
         request_model := fun (n : Nat) => Except.ok n, running := true },
       Except.error "herr",
       [.pull { subscription := "s", max_messages := 1 } 30, .json_loads [0],
        .handle 1])) :=
  ⟨(process_one_error_propagates
      { subscription := "s", handler := fun _ => Except.ok (),
        request_model := fun (n : Nat) => Except.ok n, running := true }
      { subscription := "x", handler := fun (_ : Nat) => Except.ok (),
        request_model := fun (n : Nat) => Except.ok n, running := true }
      (fun _ => Except.error "jerr")
      { received_messages := [{ message := { data := [0] }, ack_id := "a1" }] }
      { message := { data := [0] }, ack_id := "a1" } [] rfl).1 "jerr" rfl,
   (process_one_error_propagates
      { subscription := "s", handler := fun (_ : Nat) => Except.ok (),
        request_model := fun (_ : Nat) => Except.error "verr", running := true }
      { subscription := "x", handler := fun (_ : Nat) => Except.ok (),
        request_model := fun (_ : Nat) => Except.error "verr", running := true }
      (fun d => Except.ok d.length)
      { received_messages := [{ message := { data := [0] }, ack_id := "a1" }] }
      { message := { data := [0] }, ack_id := "a1" } [] rfl).2.1 1 "verr" rfl rfl,
   (process_one_error_propagates
      { subscription := "s", handler := fun (_ : Nat) => Except.error "herr",
        request_model := fun (n : Nat) => Except.ok n, running := true }
      { subscription := "x", handler := fun (_ : Nat) => Except.ok (),
        request_model := fun (n : Nat) => Except.ok n, running := true }
      (fun d => Except.ok d.length)
      { received_messages := [{ message := { data := [0] }, ack_id := "a1" }] }
      { message := { data := [0] }, ack_id := "a1" } [] rfl).2.2.1 1 1 "herr"
        rfl rfl rfl,
   (process_one_error_propagates
      { subscription := "x", handler := fun (_ : Nat) => Except.ok (),
        request_model := fun (n : Nat) => Except.ok n, running := true }
      { subscription := "s", handler := fun _ => Except.ok (),
        request_model := fun (n : Nat) => Except.ok n, running := true }
      (fun _ => Except.error "jerr")
      { received_messages := [{ message := { data := [0] }, ack_id := "a1" }] }
      { message := { data := [0] }, ack_id := "a1" } [] rfl).2.2.2.1 "jerr" rfl,
   (process_one_error_propagates
      { subscription := "x", handler := fun (_ : Nat) => Except.ok (),
        request_model := fun (n : Nat) => Except.ok n, running := true }
      { subscription := "s", handler := fun (_ : Nat) => Except.error "herr",
        request_model := fun (n : Nat) => Except.ok n, running := true }
      (fun d => Except.ok d.length)
      { received_messages := [{ message := { data := [0] }, ack_id := "a1" }] }
      { message := { data := [0] }, ack_id := "a1" } [] rfl).2.2.2.2.2 1 1 "herr"
        rfl rfl rfl⟩

/-- C4: every `process_one_message` call (sync and async) starts with a
pull whose request has `max_messages = 1` and whose timeout is the fixed
default 30; and on the fully successful path the trace is pull, decode,
handle, then exactly one `acknowledge` carrying the singleton list of that
message's ack id. -/
theorem process_one_success_acknowledges {J R : Type}
    (c : MessageConsumer J R) (ca : AsyncMessageConsumer J R)
    (jl : List Nat → Except String J) :
    (∀ response, ((c.process_one_message jl response).2.2).head? =
      some (.pull { subscription := c.subscription, max_messages := 1 } 30)) ∧
    (∀ response rm rest j r, response.received_messages = rm :: rest →
      jl rm.message.data = .ok j → c.request_model j = .ok r →
      c.handler r = .ok () →
      c.process_one_message jl response =
        (c, .ok (),
         [.pull { subscription := c.subscription, max_messages := 1 } 30,
          .json_loads rm.message.data, .handle r,
          .acknowledge { subscription := c.subscription,
                         ack_ids := [rm.ack_id] }])) ∧
    (∀ response, ((ca.process_one_message jl response).2.2).head? =
      some (.pull { subscription := ca.subscription, max_messages := 1 } 30)) ∧
    (∀ response rm rest j r, response.received_messages = rm :: rest →
      jl rm.message.data = .ok j → ca.request_model j = .ok r →
      ca.handler r = .ok () →
      ca.process_one_message jl response =
        (ca, .ok (),
         [.pull { subscription := ca.subscription, max_messages := 1 } 30,
          .json_loads rm.message.data, .handle r,
          .acknowledge { subscription := ca.subscription,
                         ack_ids := [rm.ack_id] }])) :=
  ⟨fun response => process_one_head c jl response,
   fun response rm rest j r hresp hj hv hh =>
     process_one_success c jl response rm rest j r hresp hj hv hh,
   fun response => async_process_one_head ca jl response,
   fun response rm rest j r hresp hj hv hh =>
     async_process_one_success ca jl response rm rest j r hresp hj hv hh⟩

/-- C4 witness: a concrete successful handling, sync and async. -/
theorem process_one_success_acknowledges_witness :
    (MessageConsumer.process_one_message
        { subscription := "s", handler := fun (_ : Nat) => Except.ok (),
          request_model := fun (n : Nat) => Except.ok n, running := true }
        (fun d => Except.ok d.length)
        { received_messages := [{ message := { data := [7] }, ack_id := "a9" }] } =
      ({ subscription := "s", handler := fun (_ : Nat) => Except.ok (),
         request_model := fun (n : Nat) => Except.ok n, running := true },
       Except.ok (),
       [.pull { subscription := "s", max_messages := 1 } 30, .json_loads [7],
        .handle 1,
        .acknowledge { subscription := "s", ack_ids := ["a9"] }])) ∧
    (AsyncMessageConsumer.process_one_message
        { subscription := "s", handler := fun (_ : Nat) => Except.ok (),
          request_model := fun (n : Nat) => Except.ok n, running := true }
        (fun d => Except.ok d.length)
        { received_messages := [{ message := { data := [7] }, ack_id := "a9" }] } =
      ({ subscription := "s", handler := fun (_ : Nat) => Except.ok (),
         request_model := fun (n : Nat) => Except.ok n, running := true },
       Except.ok (),
       [.pull { subscription := "s", max_messages := 1 } 30, .json_loads [7],
        .handle 1,
        .acknowledge { subscription := "s", ack_ids := ["a9"] }])) :=
  ⟨(process_one_success_acknowledges
      { subscription := "s", handler := fun (_ : Nat) => Except.ok (),
        request_model := fun (n : Nat) => Except.ok n, running := true }
      { subscription := "s", handler := fun (_ : Nat) => Except.ok (),
        request_model := fun (n : Nat) => Except.ok n, running := true }
      (fun d => Except.ok d.length)).2.1
      { received_messages := [{ message := { data := [7] }, ack_id := "a9" }] }
      { message := { data := [7] }, ack_id := "a9" } [] 1 1 rfl rfl rfl rfl,
   (process_one_success_acknowledges
      { subscription := "s", handler := fun (_ : Nat) => Except.ok (),
        request_model := fun (n : Nat) => Except.ok n, running := true }
      { subscription := "s", handler := fun (_ : Nat) => Except.ok (),
        request_model := fun (n : Nat) => Except.ok n, running := true }
      (fun d => Except.ok d.length)).2.2.2
      { received_messages := [{ message := { data := [7] }, ack_id := "a9" }] }
      { message := { data := [7] }, ack_id := "a9" } [] 1 1 rfl rfl rfl rfl⟩

/-- C5: an empty pull result makes `process_one_message` (sync and async)
return immediately with success: the only effect is the pull itself — no
decode is attempted, the handler is not invoked, no acknowledge is issued
— and the consumer object comes back unchanged, so the loop can keep
iterating. -/
theorem process_one_empty_noop {J R : Type} (c : MessageConsumer J R)
    (ca : AsyncMessageConsumer J R) (jl : List Nat → Except String J)
    (response : PullResponse)
    (hresp : response.received_messages = []) :
    c.process_one_message jl response =
      (c, .ok (),
       [.pull { subscription := c.subscription, max_messages := 1 } 30]) ∧
    ca.process_one_message jl response =
      (ca, .ok (),
       [.pull { subscription := ca.subscription, max_messages := 1 } 30]) := by
  rcases response with ⟨msgs⟩
  simp only at hresp
  subst hresp
  exact ⟨rfl, rfl⟩

/-- C5 witness: a concrete empty pull result. -/
theorem process_one_empty_noop_witness :
    MessageConsumer.process_one_message
        { subscription := "s", handler := fun (_ : Nat) => Except.ok (),
          request_model := fun (n : Nat) => Except.ok n, running := true }
        (fun d => Except.ok d.length) { received_messages := [] } =
      ({ subscription := "s", handler := fun (_ : Nat) => Except.ok (),
         request_model := fun (n : Nat) => Except.ok n, running := true },
       Except.ok (),
       [.pull { subscription := "s", max_messages := 1 } 30]) :=
  (process_one_empty_noop
    { subscription := "s", handler := fun (_ : Nat) => Except.ok (),
      request_model := fun (n : Nat) => Except.ok n, running := true }
    { subscription := "s", handler := fun (_ : Nat) => Except.ok (),
      request_model := fun (n : Nat) => Except.ok n, running := true }
    (fun d => Except.ok d.length) { received_messages := [] } rfl).1

/-- C10: on a pull result with two or more received messages,
`process_one_message` (sync and async) behaves exactly as on the singleton
result holding the first message: the later messages are never decoded,
handled, or acknowledged by this call. -/
theorem process_one_first_message_only {J R : Type} (c : MessageConsumer J R)
    (ca : AsyncMessageConsumer J R) (jl : List Nat → Except String J)
    (m1 m2 : ReceivedMessage) (ms : List ReceivedMessage) :
    c.process_one_message jl { received_messages := m1 :: m2 :: ms } =
      c.process_one_message jl { received_messages := [m1] } ∧
    ca.process_one_message jl { received_messages := m1 :: m2 :: ms } =
      ca.process_one_message jl { received_messages := [m1] } :=
  ⟨process_one_first J R c jl m1 (m2 :: ms),
   async_process_one_first J R ca jl m1 (m2 :: ms)⟩

/-- C8: `run()` (sync and async) performs zero iterations and returns
immediately when the running flag is false — `process_one_message` is
never entered, whatever pull responses are queued; and while the flag is
true (it is mutated only by `start()`/`stop()`, and `process_one_message`
leaves the consumer unchanged) each iteration boundary re-checks the flag
and executes one `process_one_message`, so every queued iteration runs
when none of them raises. -/
theorem run_respects_running_flag {J R : Type} (c : MessageConsumer J R)
    (ca : AsyncMessageConsumer J R) (jl : List Nat → Except String J) :
    (c.running = false → ∀ pulls, c.run jl pulls = (.ok (), [])) ∧
    (c.running = true → ∀ pulls,
      (∀ p ∈ pulls, (c.process_one_message jl p).2.1 = .ok ()) →
      c.run jl pulls =
        (.ok (),
         (pulls.map (fun p => (c.process_one_message jl p).2.2)).flatten)) ∧
    (ca.running = false → ∀ pulls, ca.run jl pulls = (.ok (), [])) ∧
    (ca.running = true → ∀ pulls,
      (∀ p ∈ pulls, (ca.process_one_message jl p).2.1 = .ok ()) →
      ca.run jl pulls =
        (.ok (),
         (pulls.map (fun p => (ca.process_one_message jl p).2.2)).flatten)) :=
  ⟨fun h pulls => run_not_running c jl pulls h,
   fun h pulls hok => run_all_iterations c jl pulls h hok,
   fun h pulls => async_run_not_running ca jl pulls h,
   fun h pulls hok => async_run_all_iterations ca jl pulls h hok⟩

/-- C8 witness: a never-started consumer runs zero iterations over a
queued message; a started one executes its (idle) iteration. -/
theorem run_respects_running_flag_witness :
    MessageConsumer.run
        { subscription := "s", handler := fun (_ : Nat) => Except.ok (),
          request_model := fun (n : Nat) => Except.ok n, running := false }
        (fun d => Except.ok d.length)
        [{ received_messages := [{ message := { data := [7] }, ack_id := "a" }] }] =
      (Except.ok (), []) ∧
    MessageConsumer.run
        { subscription := "s", handler := fun (_ : Nat) => Except.ok (),
          request_model := fun (n : Nat) => Except.ok n, running := true }
        (fun d => Except.ok d.length) [{ received_messages := [] }] =
      (Except.ok (),
       ([{ received_messages := [] }].map
         (fun p => (MessageConsumer.process_one_message
           { subscription := "s", handler := fun (_ : Nat) => Except.ok (),
             request_model := fun (n : Nat) => Except.ok n, running := true }
           (fun d => Except.ok d.length) p).2.2)).flatten) ∧
    AsyncMessageConsumer.run
        { subscription := "s", handler := fun (_ : Nat) => Except.ok (),
          request_model := fun (n : Nat) => Except.ok n, running := false }
        (fun d => Except.ok d.length)
        [{ received_messages := [{ message := { data := [7] }, ack_id := "a" }] }] =
      (Except.ok (), []) :=
  ⟨(run_respects_running_flag
      { subscription := "s", handler := fun (_ : Nat) => Except.ok (),
        request_model := fun (n : Nat) => Except.ok n, running := false }
      { subscription := "s", handler := fun (_ : Nat) => Except.ok (),
        request_model := fun (n : Nat) => Except.ok n, running := false }
      (fun d => Except.ok d.length)).1 rfl
      [{ received_messages := [{ message := { data := [7] }, ack_id := "a" }] }],
   (run_respects_running_flag
      { subscription := "s", handler := fun (_ : Nat) => Except.ok (),
        request_model := fun (n : Nat) => Except.ok n, running := true }
      { subscription := "s", handler := fun (_ : Nat) => Except.ok (),
        request_model := fun (n : Nat) => Except.ok n, running := true }
      (fun d => Except.ok d.length)).2.1 rfl [{ received_messages := [] }]
      (by intro p hp; simp only [List.mem_singleton] at hp; subst hp; rfl),
   (run_respects_running_flag
      { subscription := "s", handler := fun (_ : Nat) => Except.ok (),
        request_model := fun (n : Nat) => Except.ok n, running := false }
      { subscription := "s", handler := fun (_ : Nat) => Except.ok (),
        request_model := fun (n : Nat) => Except.ok n, running := false }
      (fun d => Except.ok d.length)).2.2.1 rfl
      [{ received_messages := [{ message := { data := [7] }, ack_id := "a" }] }]⟩
